import Mathlib

set_option maxRecDepth 100000

unseal Rat.mul Rat.inv

/-!
Verification of the MutualFund_Chatbot retrieval and response pipeline.

The development shallowly embeds the Python sources:
  * `scripts/gemini_web_chatbot.py` (class `WebGeminiFAQAssistant`):
    retrieval (`find_relevant_chunks`), context formatting
    (`format_context_for_gemini`), response generation
    (`generate_gemini_response` / `generate_basic_response`) and the
    routing pipeline (`answer_question`);
  * `scripts/llm_enhanced_chatbot.py` (fallback response generation);
  * `scripts/interactive_faq.py` (conversational composer);
  * `scripts/prepare_rag_data.py` (`prepare_rag_chunks`);
  * `database/db_manager.py` (`save_scheme_data` status logic) together
    with `scraper/validators.py` (`validate_scraped_data`).

Modelling conventions:
  * Python floats that only ever flow into comparisons (cosine similarity
    scores) are modelled as rationals (`ℚ`).
  * Strings are Lean `String`s; the Python string operations used by the
    code (`lower`, `strip`, `split`, `in`, `startswith`, `replace`,
    `title`, `upper`) are re-implemented below over the character list so
    that every definition evaluates inside the kernel.
  * Calls to external services (the sentence-embedding model and the
    hosted LLM) are abstracted as explicit inputs: a similarity oracle
    `String → List ℚ` standing for cosine similarity between the encoded
    question and each stored embedding, and an `Option String` standing
    for the outcome of the generation call (`none` = any failure:
    exception, timeout, malformed response).  The literal prompt strings
    built for the external API are elided: they only feed the external
    call and never reach the function's observable output.
-/

/-! ## Python string primitives -/

/-- Bool test that one character list starts with another (needle first). -/
def listStarts : List Char → List Char → Bool
  | [], _ => true
  | _ :: _, [] => false
  | a :: as, b :: bs => a == b && listStarts as bs

/-- Bool test that `needle` occurs contiguously inside `hay`. -/
def listIsSub (needle : List Char) : List Char → Bool
  | [] => needle.isEmpty
  | c :: rest => listStarts needle (c :: rest) || listIsSub needle rest

/-- Python `needle in hay` (substring containment). -/
def strContains (hay needle : String) : Bool :=
  listIsSub needle.data hay.data

/-- Python `hay.startswith(p)`. -/
def strStartsWith (hay p : String) : Bool :=
  listStarts p.data hay.data

/-- Python `str.lower()` (ASCII case folding, which covers every keyword
table in the sources). -/
def pyLower (s : String) : String :=
  ⟨s.data.map Char.toLower⟩

/-- Python `str.upper()`. -/
def pyUpper (s : String) : String :=
  ⟨s.data.map Char.toUpper⟩

/-- Python whitespace as recognised by `str.strip` / `str.split`. -/
def pyIsSpace (c : Char) : Bool :=
  c == ' ' || c == '\t' || c == '\n' || c == '\r' || c == '\x0b' || c == '\x0c'

/-- Python `str.strip()`. -/
def pyStrip (s : String) : String :=
  ⟨((s.data.dropWhile pyIsSpace).reverse.dropWhile pyIsSpace).reverse⟩

/-- Helper for `pySplitWs`: split a character list on whitespace runs. -/
def pySplitWsAux : List Char → List Char → List String
  | [], acc => if acc.isEmpty then [] else [⟨acc.reverse⟩]
  | c :: rest, acc =>
      if pyIsSpace c then
        if acc.isEmpty then pySplitWsAux rest []
        else ⟨acc.reverse⟩ :: pySplitWsAux rest []
      else pySplitWsAux rest (c :: acc)

/-- Python `str.split()` with no argument: split on whitespace runs,
dropping empty pieces. -/
def pySplitWs (s : String) : List String :=
  pySplitWsAux s.data []

/-- Helper for `pySplitLines`. -/
def pySplitLinesAux : List Char → List Char → List String
  | [], acc => [⟨acc.reverse⟩]
  | c :: rest, acc =>
      if c == '\n' then ⟨acc.reverse⟩ :: pySplitLinesAux rest []
      else pySplitLinesAux rest (c :: acc)

/-- Python `str.split('\n')`. -/
def pySplitLines (s : String) : List String :=
  pySplitLinesAux s.data []

/-- Python `str.replace('_', ' ')` (single-character pattern). -/
def pyUnderscoreToSpace (s : String) : String :=
  ⟨s.data.map (fun c => if c == '_' then ' ' else c)⟩

/-- Helper for `pyTitle`: the flag records whether the previous character
was alphabetic. -/
def pyTitleAux : Bool → List Char → List Char
  | _, [] => []
  | prevAlpha, c :: rest =>
      if c.isAlpha then
        (if prevAlpha then c.toLower else c.toUpper) :: pyTitleAux true rest
      else c :: pyTitleAux false rest

/-- Python `str.title()` (ASCII): the first letter of each alphabetic run
is uppercased, the rest lowercased. -/
def pyTitle (s : String) : String :=
  ⟨pyTitleAux false s.data⟩

/-- `question.lower().strip()`, the normalisation applied at the top of
`WebGeminiFAQAssistant.answer_question`. -/
def pyQ (question : String) : String :=
  pyStrip (pyLower question)

theorem listStarts_self (l : List Char) : listStarts l l = true := by
  induction l with
  | nil => rfl
  | cons c rest ih => simp [listStarts, ih]

theorem listIsSub_append_right (pre s : List Char) :
    listIsSub s (pre ++ s) = true := by
  induction pre with
  | nil =>
      cases s with
      | nil => rfl
      | cons c rest => simp [listIsSub, listStarts_self]
  | cons p pre ih => simp [listIsSub, ih]

/-- A string is always contained in any extension of itself on the left. -/
theorem strContains_append_right (pre s : String) :
    strContains (pre ++ s) s = true := by
  have h : (pre ++ s).data = pre.data ++ s.data := rfl
  rw [strContains, h]
  exact listIsSub_append_right pre.data s.data

/-! ## Data model

A retrieval chunk mirrors one object of `rag_data/rag_chunks.json`
(produced by `prepare_rag_data.py`): fund name, source url, chunk type
and a field→value mapping.  Values in the JSON are strings, string
dictionaries (risk metrics, returns) or lists of string dictionaries
(top holdings), captured by `PyVal`. -/

inductive PyVal where
  | str (s : String)
  | dict (kvs : List (String × String))
  | list (items : List (List (String × String)))
deriving DecidableEq, Repr

structure Chunk where
  fund_name : String
  source_url : String
  chunk_type : String
  data : List (String × PyVal)
deriving DecidableEq, Repr

/-- One entry of the `sources` array returned by `/ask`. -/
structure Source where
  fund_name : String
  url : String
  type : String
deriving DecidableEq, Repr

/-- The value returned by `WebGeminiFAQAssistant.answer_question`. -/
structure Answer where
  response : String
  sources : List Source
deriving DecidableEq, Repr

/-- Python dict lookup `data[k]` / `k in data` on a chunk's data mapping. -/
def lookupData (data : List (String × PyVal)) (k : String) : Option PyVal :=
  (data.find? (fun kv => kv.1 == k)).map (·.2)

/-! ## Retrieval engine (`find_relevant_chunks`)

`find_relevant_chunks` (identical shape in every chatbot variant, with
per-variant `top_k` defaults and thresholds 0.1/0.2/0.3) computes cosine
similarities, takes `np.argsort(similarities)[-top_k:][::-1]` and keeps
the entries whose similarity is strictly above the threshold. -/

/-- Insert index `i` into an index list sorted ascending by `key`,
after any index with an equal key (stability). -/
def argsortInsert (key : Nat → ℚ) (i : Nat) : List Nat → List Nat
  | [] => [i]
  | j :: rest => if key i < key j then i :: j :: rest else j :: argsortInsert key i rest

/-- Model of `np.argsort` (ascending).  NumPy's default sort leaves the
order of equal keys unspecified; the model resolves ties by original
position, which agrees with NumPy's observed behaviour on the short
arrays this program sorts (no swap is performed on equal keys). -/
def argsort (xs : List ℚ) : List Nat :=
  (List.range xs.length).foldl (fun acc i => argsortInsert (fun k => xs.getD k 0) i acc) []

/-- Python slice `l[-k:]`.  For `k = 0` this is `l[0:]`, the whole list;
for `k ≥ 1` it is the last `min k (length l)` elements. -/
def pySliceLast (l : List α) (k : Nat) : List α :=
  if k = 0 then l else l.drop (l.length - k)

instance : Inhabited Chunk := ⟨⟨"", "", "", []⟩⟩

/-- The result-collection loop of `find_relevant_chunks`: walk the
descending index list and keep entries strictly above the threshold. -/
def collectAbove (chunks : List Chunk) (sims : List ℚ) (threshold : ℚ) :
    List Nat → List (Chunk × ℚ)
  | [] => []
  | idx :: rest =>
      if threshold < sims.getD idx 0 then
        (chunks.getD idx default, sims.getD idx 0) :: collectAbove chunks sims threshold rest
      else collectAbove chunks sims threshold rest

/-- The retrieval contract `rank` of the spec, parametrised by threshold;
`sims` abstracts `cosine_similarity(encode(question), embeddings)[0]`. -/
def rank (chunks : List Chunk) (sims : List ℚ) (top_k : Nat) (threshold : ℚ) :
    List (Chunk × ℚ) :=
  collectAbove chunks sims threshold ((pySliceLast (argsort sims) top_k).reverse)

/-- `WebGeminiFAQAssistant.find_relevant_chunks`: threshold 0.2. -/
def find_relevant_chunks (chunks : List Chunk) (sims : List ℚ) (top_k : Nat) :
    List (Chunk × ℚ) :=
  rank chunks sims top_k (1/5)

theorem argsortInsert_length (key : Nat → ℚ) (i : Nat) (l : List Nat) :
    (argsortInsert key i l).length = l.length + 1 := by
  induction l with
  | nil => rfl
  | cons j rest ih =>
      simp only [argsortInsert]
      split <;> simp [ih]

theorem argsort_length (xs : List ℚ) : (argsort xs).length = xs.length := by
  have main : ∀ (l : List Nat) (acc : List Nat),
      (l.foldl (fun acc i => argsortInsert (fun k => xs.getD k 0) i acc) acc).length
        = acc.length + l.length := by
    intro l
    induction l with
    | nil => intro acc; simp
    | cons i rest ih =>
        intro acc
        simp only [List.foldl_cons]
        rw [ih, argsortInsert_length]
        simp only [List.length_cons]
        omega
  simpa [argsort] using main (List.range xs.length) []

theorem pySliceLast_length_le (l : List α) (k : Nat) (hk : 1 ≤ k) :
    (pySliceLast l k).length ≤ k := by
  have hk0 : k ≠ 0 := by omega
  simp only [pySliceLast, if_neg hk0, List.length_drop]
  omega

theorem collectAbove_length_le (chunks : List Chunk) (sims : List ℚ) (threshold : ℚ)
    (idxs : List Nat) :
    (collectAbove chunks sims threshold idxs).length ≤ idxs.length := by
  induction idxs with
  | nil => simp [collectAbove]
  | cons idx rest ih =>
      simp only [collectAbove]
      split <;> simp <;> omega

theorem collectAbove_mem_score (chunks : List Chunk) (sims : List ℚ) (threshold : ℚ)
    (idxs : List Nat) (p : Chunk × ℚ)
    (hp : p ∈ collectAbove chunks sims threshold idxs) : threshold < p.2 := by
  induction idxs with
  | nil => simp [collectAbove] at hp
  | cons idx rest ih =>
      simp only [collectAbove] at hp
      split at hp
      · rcases List.mem_cons.mp hp with h | h
        · subst h; assumption
        · exact ih h
      · exact ih hp

/-! ## Intent router and guardrails of `WebGeminiFAQAssistant.answer_question`

All keyword tables and canned responses are transcribed from
`scripts/gemini_web_chatbot.py` (apostrophes written as `\x27`, the
mojibake bytes of the source reproduced with unicode escapes). -/

def greeting_keywords : List String :=
  ["hi", "hello", "hey", "greetings", "good morning", "good afternoon",
   "good evening", "what\x27s up", "howdy", "namaste"]

def guardrail_holdings_keywords : List String :=
  ["holding", "holdings", "stock", "stocks", "portfolio", "composition", "allocation"]

def advice_keywords : List String :=
  ["invest", "buy", "sell", "hold", "recommend", "recommendation",
   "suggest", "allocate", "allocation", "portfolio", "best fund",
   "should i", "advice", "top", "best", "rank", "ranking",
   "outperform", "better than", "worse than", "compare", "comparison"]

def nav_keywords : List String :=
  ["nav", "net asset value", "current nav", "today nav", "current price",
   "sip", "exit load", "minimum sip", "min sip"]

def pe_keywords : List String :=
  ["p/e", "pe ratio", "pe ", "p/b", "pb ratio", "pb ", "price to earnings", "price to book"]

def expense_keywords : List String :=
  ["expense ratio", "expense", "cost", "fee", "charge", "stamp duty"]

def characteristics_keywords : List String :=
  ["fund manager", "manager", "fund size", "size", "category", "scheme type",
   "scheme", "lock-in", "lock in", "lockin"]

def risk_keywords : List String :=
  ["risk", "riskometer", "alpha", "beta", "sharpe", "sortino", "benchmark"]

def intent_holdings_keywords : List String :=
  ["holding", "holdings", "stock", "stocks", "portfolio composition",
   "top 5", "top 10", "top five", "top ten"]

def general_keywords : List String :=
  ["what is", "what are", "define", "nav", "aum", "expense ratio",
   "p/e ratio", "pb ratio", "cagr", "sharpe", "sortino", "beta", "alpha"]

/-- `any(k in q for k in keywords)`. -/
def anyKw (q : String) (keywords : List String) : Bool :=
  keywords.any (fun k => strContains q k)

/-- The greeting detector:
`any(q == k or q.startswith(k + ' ') for k in greeting_keywords)`. -/
def isGreeting (q : String) : Bool :=
  greeting_keywords.any (fun k => q == k || strStartsWith q (k ++ " "))

/-- `is_holdings_query` of the guardrail. -/
def isHoldingsQuery (q : String) : Bool :=
  anyKw q guardrail_holdings_keywords

/-- Advice-keyword detection of the guardrail. -/
def isAdviceQuery (q : String) : Bool :=
  anyKw q advice_keywords

/-- `not is_holdings_query and any(k in q for k in advice_keywords)`. -/
def adviceBlocked (q : String) : Bool :=
  !isHoldingsQuery q && isAdviceQuery q

def growwUrl : String := "https://groww.in/mutual-funds/amc/uti-mutual-funds"

/-- The canned greeting answer. -/
def greetingAnswer : Answer :=
  { response := "Hello! ðŸ‘‹ I\x27m your UTI Mutual Fund Assistant. I can help you explore and learn more about UTI\x27s mutual fund offerings. Feel free to ask me about fund details, performance metrics, expenses, risk information, and more. Or visit Groww to explore all available funds: https://groww.in/mutual-funds/amc/uti-mutual-funds",
    sources := [{ fund_name := "Groww - UTI Mutual Funds", url := growwUrl, type := "reference" }] }

/-- The fixed advice refusal answer. -/
def adviceRefusalAnswer : Answer :=
  { response := "This assistant is designed to provide factual information about UTI Mutual Funds only. It does not provide investment advice.\n\nVisit Groww to know more.",
    sources := [{ fund_name := "Groww Platform", url := growwUrl, type := "reference" }] }

/-- The low-similarity general-definition answer. -/
def generalAnswer : Answer :=
  { response := "I don\x27t have this information in my current database. Please visit Groww (https://groww.in/mutual-funds/amc/uti-mutual-funds) to know more about mutual fund terms and indicators.",
    sources := [{ fund_name := "Groww - UTI Mutual Funds", url := growwUrl, type := "reference" }] }

/-! ### Result-count detection

`re.search(r'(\d+)\s+fund', q)`: the leftmost occurrence of a digit run
followed by whitespace and the literal `fund`. -/

/-- Decimal value of a digit run. -/
def digitsToNat (ds : List Char) : Nat :=
  ds.foldl (fun acc c => acc * 10 + (c.toNat - 48)) 0

/-- Try to match `(\d+)\s+fund` anchored at the start of `cs`. -/
def parseNumFundAt (cs : List Char) : Option Nat :=
  let ds := cs.takeWhile (fun c => c.isDigit)
  if ds.isEmpty then none
  else
    let rest := cs.drop ds.length
    let sp := rest.takeWhile pyIsSpace
    if sp.isEmpty then none
    else if listStarts "fund".data (rest.drop sp.length) then some (digitsToNat ds)
    else none

/-- Leftmost match of `(\d+)\s+fund`, as `re.search` finds it. -/
def searchNumFund : List Char → Option Nat
  | [] => none
  | c :: rest =>
      match parseNumFundAt (c :: rest) with
      | some n => some n
      | none => searchNumFund rest

/-- `top_k = int(match.group(1)) if match else 10; top_k = min(top_k, 15)`. -/
def topKOf (q : String) : Nat :=
  min ((searchNumFund q.data).getD 10) 15

/-! ### Fund disambiguation -/

/-- The words of the lowercased fund name longer than 3 characters
(`[w for w in fund_name_lower.split() if len(w) > 3]`). -/
def fundSignificantWords (fund_name : String) : List String :=
  (pySplitWs (pyLower fund_name)).filter (fun w => 3 < w.length)

/-- `matching_words / len(fund_words)` for a candidate fund name. -/
def fundMatchScore (q : String) (fund_name : String) : ℚ :=
  let ws := fundSignificantWords fund_name
  ((ws.countP (fun w => strContains q w) : ℚ)) / (ws.length : ℚ)

/-- The candidate-scan loop over the retrieved chunks, carrying
`best_match_score` and `mentioned_fund`. -/
def mentionedFundAux (q : String) :
    List (Chunk × ℚ) → ℚ → Option String → Option String
  | [], _, best_fund => best_fund
  | r :: rest, best_score, best_fund =>
      if (fundSignificantWords r.1.fund_name).length ≠ 0 then
        let score := fundMatchScore q r.1.fund_name
        if 1/2 < score ∧ best_score < score then
          mentionedFundAux q rest score (some (pyLower r.1.fund_name))
        else mentionedFundAux q rest best_score best_fund
      else mentionedFundAux q rest best_score best_fund

/-- The fund mentioned by the question, if one candidate clears the
majority threshold. -/
def mentionedFund (q : String) (rcs : List (Chunk × ℚ)) : Option String :=
  mentionedFundAux q rcs 0 none

/-- `[c for c in relevant_chunks if c['chunk']['fund_name'].lower() == mentioned_fund]`. -/
def mentionFilter (mentioned : Option String) (rcs : List (Chunk × ℚ)) :
    List (Chunk × ℚ) :=
  match mentioned with
  | some f => rcs.filter (fun r => pyLower r.1.fund_name == f)
  | none => rcs

/-! ### Chunk-type routing -/

/-- The common shape of each `elif asking_about_*` arm: keep the chunks of
the wanted type (first one only), falling back to the unfiltered first
chunk when none match. -/
def chunkTypeNarrow (t : String) (rcs : List (Chunk × ℚ)) : List (Chunk × ℚ) :=
  let s := rcs.filter (fun r => r.1.chunk_type == t)
  if s.isEmpty then rcs.take 1 else s.take 1

/-- The `elif` chain filtering by chunk type, in source order:
characteristics, NAV, expense, performance, risk, holdings, then the
mentioned-fund cap of 3. -/
def typeFilter (q : String) (mentioned : Option String) (rcs : List (Chunk × ℚ)) :
    List (Chunk × ℚ) :=
  if anyKw q characteristics_keywords then chunkTypeNarrow "fund_characteristics" rcs
  else if anyKw q nav_keywords then chunkTypeNarrow "nav_sip_information" rcs
  else if anyKw q expense_keywords then chunkTypeNarrow "expense_information" rcs
  else if anyKw q pe_keywords then chunkTypeNarrow "performance_metrics" rcs
  else if anyKw q risk_keywords then chunkTypeNarrow "risk_information" rcs
  else if anyKw q intent_holdings_keywords then chunkTypeNarrow "holdings_information" rcs
  else if mentioned.isSome then rcs.take 3
  else rcs

/-- The low-similarity fallback test: no chunk survived, or the best one
scores under 0.3, and the question contains a general keyword. -/
def generalTaken (q : String) (rcs : List (Chunk × ℚ)) : Bool :=
  (match rcs with
   | [] => true
   | r :: _ => decide (r.2 < 3/10)) && anyKw q general_keywords

/-! ## Context formatting (`format_context_for_gemini`)

Each typed branch renders only the first chunk ("LIMIT TO 1 FUND" in the
source); the default branch enumerates every chunk.  `â‚¹` reproduces
the mojibake rupee sign of the source file. -/

/-- Python `str(value)` for a chunk data value as interpolated into the
f-strings of the formatter (dicts and lists render with Python repr,
single quotes written `\x27`, braces written `\x7b`/`\x7d`). -/
def pyReprDict (kvs : List (String × String)) : String :=
  "\x7b" ++ String.intercalate ", "
    (kvs.map (fun kv => "\x27" ++ kv.1 ++ "\x27: \x27" ++ kv.2 ++ "\x27")) ++ "\x7d"

def pyStrV : PyVal → String
  | .str s => s
  | .dict kvs => pyReprDict kvs
  | .list items => "[" ++ String.intercalate ", " (items.map pyReprDict) ++ "]"

/-- Optional line `label ++ value` when field `k` is present. -/
def fieldLine (data : List (String × PyVal)) (k label : String) : List String :=
  match lookupData data k with
  | some v => [label ++ pyStrV v]
  | none => []

/-- The `expense_information` branch for one chunk. -/
def expenseParts (c : Chunk) : List String :=
  [c.fund_name]
  ++ fieldLine c.data "expense_ratio" "Expense Ratio: "
  ++ fieldLine c.data "stamp_duty" "Stamp Duty: "
  ++ ["Source: " ++ c.source_url]

/-- The `nav_sip_information` branch for one chunk. -/
def navParts (c : Chunk) : List String :=
  [c.fund_name]
  ++ (match lookupData c.data "nav" with
      | some v =>
          ["NAV: â‚¹" ++ pyStrV v ++ " (as of "
            ++ (match lookupData c.data "nav_date" with
                | some d => pyStrV d
                | none => "N/A") ++ ")"]
      | none => [])
  ++ (match lookupData c.data "min_sip" with
      | some v => ["Minimum SIP: â‚¹" ++ pyStrV v]
      | none => [])
  ++ (match lookupData c.data "exit_load" with
      | some v =>
          if pyLower (pyStrV v) == "nil" then ["Exit Load: None"]
          else ["Exit Load: " ++ pyStrV v]
      | none => [])
  ++ ["Source: " ++ c.source_url]

/-- The `performance_metrics` branch for one chunk. -/
def perfParts (c : Chunk) : List String :=
  [c.fund_name]
  ++ fieldLine c.data "pe_ratio" "P/E Ratio: "
  ++ fieldLine c.data "pb_ratio" "P/B Ratio: "
  ++ ["Source: " ++ c.source_url]

/-- The `risk_information` branch for one chunk (`isinstance(metrics, dict)`
guards the metric enumeration). -/
def riskParts (c : Chunk) : List String :=
  [c.fund_name, "Risk Information"]
  ++ fieldLine c.data "riskometer" "Riskometer: "
  ++ (match lookupData c.data "risk_metrics" with
      | some (.dict kvs) =>
          "\nRisk Metrics:" :: kvs.map (fun kv => "  " ++ pyUpper kv.1 ++ ": " ++ kv.2)
      | some _ => ["\nRisk Metrics:"]
      | none => [])
  ++ fieldLine c.data "benchmark" "\nBenchmark: "
  ++ ["Source: " ++ c.source_url]

/-- The `fund_characteristics` branch for one chunk. -/
def charParts (c : Chunk) : List String :=
  [c.fund_name]
  ++ fieldLine c.data "fund_size" "Fund Size: "
  ++ fieldLine c.data "fund_manager" "Fund Manager: "
  ++ fieldLine c.data "scheme_type" "Scheme Type: "
  ++ fieldLine c.data "sub_category" "Category: "
  ++ fieldLine c.data "lock_in" "Lock-in Period: "
  ++ ["Source: " ++ c.source_url]

/-- The `holdings_information` branch for one chunk.  A non-list
`top_holdings` value would raise in Python; it is modelled as rendering
no holding rows. -/
def holdParts (c : Chunk) : List String :=
  [c.fund_name, "Top Holdings"]
  ++ (match lookupData c.data "top_holdings" with
      | some (.list items) =>
          items.map (fun h =>
            (((h.find? (fun kv => kv.1 == "stock")).map (·.2)).getD "") ++ " "
              ++ (((h.find? (fun kv => kv.1 == "percentage")).map (·.2)).getD ""))
      | some _ => []
      | none => [])
  ++ ["Source: " ++ c.source_url]

/-- One enumerated entry of the default (mixed-type) formatting. -/
def defaultChunkLines (i : Nat) (c : Chunk) : List String :=
  ["\n" ++ toString i ++ ". Fund: " ++ c.fund_name,
   "   Category: " ++ pyTitle (pyUnderscoreToSpace c.chunk_type)]
  ++ (c.data.flatMap (fun kv =>
        match kv.2 with
        | .dict kvs =>
            ("   " ++ pyTitle (pyUnderscoreToSpace kv.1) ++ ":")
              :: kvs.map (fun sub => "     " ++ pyTitle sub.1 ++ ": " ++ sub.2)
        | v => ["   " ++ pyTitle (pyUnderscoreToSpace kv.1) ++ ": " ++ pyStrV v]))
  ++ ["   Source: " ++ c.source_url]

/-- Apply a per-chunk renderer to the first retrieved chunk only and join
with newlines (the "LIMIT TO 1 FUND" pattern). -/
def formatFirst (parts : Chunk → List String) (rcs : List (Chunk × ℚ)) : String :=
  String.intercalate "\n" (((rcs.take 1).map (·.1)).flatMap parts)

/-- `WebGeminiFAQAssistant.format_context_for_gemini`: dispatch on the
chunk type of the first retrieved chunk. -/
def format_context_for_gemini (rcs : List (Chunk × ℚ)) : String :=
  match rcs with
  | [] => "No relevant information found."
  | first :: _ =>
      if first.1.chunk_type == "expense_information" then formatFirst expenseParts rcs
      else if first.1.chunk_type == "nav_sip_information" then formatFirst navParts rcs
      else if first.1.chunk_type == "performance_metrics" then formatFirst perfParts rcs
      else if first.1.chunk_type == "risk_information" then formatFirst riskParts rcs
      else if first.1.chunk_type == "fund_characteristics" then formatFirst charParts rcs
      else if first.1.chunk_type == "holdings_information" then formatFirst holdParts rcs
      else
        String.intercalate "\n"
          ("Relevant information about UTI mutual funds:"
            :: (rcs.enum.flatMap (fun p => defaultChunkLines (p.1 + 1) p.2.1)))

/-! ## Response generation -/

/-- `WebGeminiFAQAssistant.generate_basic_response`: the no-LLM fallback,
returning the full context without truncation. -/
def generate_basic_response (question context : String) : String :=
  "Based on the information I found:\n\n" ++ context

/-- `WebGeminiFAQAssistant.generate_gemini_response`.  `apiResult`
abstracts the REST call: `some text` is a successful generation, `none`
any failure (exception, timeout, malformed response), which the broad
`except` turns into the basic fallback.  Without an API key the function
returns the fallback immediately. -/
def generate_gemini_response (api_key apiResult : Option String)
    (question context : String) : String :=
  match api_key with
  | none => generate_basic_response question context
  | some _ =>
      match apiResult with
      | some text => text
      | none => generate_basic_response question context

/-! ## Source list formatting -/

def sourceOfChunk (c : Chunk) : Source :=
  { fund_name := c.fund_name, url := c.source_url, type := c.chunk_type }

/-- `mentioned_funds`: the lowercased names of retrieved chunks whose full
fund name occurs in the lowercased question. -/
def mentionedFundsIn (question_lower : String) (rcs : List (Chunk × ℚ)) : List String :=
  rcs.filterMap (fun r =>
    if strContains question_lower (pyLower r.1.fund_name) then some (pyLower r.1.fund_name)
    else none)

/-- The sources block of `answer_question`: restrict to funds named in
full in the question when there are any, otherwise list every chunk. -/
def sourcesOf (question : String) (rcs : List (Chunk × ℚ)) : List Source :=
  let mfs := mentionedFundsIn (pyLower question) rcs
  if mfs.isEmpty then rcs.map (fun r => sourceOfChunk r.1)
  else (rcs.filter (fun r => mfs.contains (pyLower r.1.fund_name))).map
    (fun r => sourceOfChunk r.1)

/-! ## The routing pipeline -/

/-- Retrieval as invoked by `answer_question`: the similarity oracle
stands for `cosine_similarity(encode(question), embeddings)[0]` and the
requested result count comes from the question. -/
def retrieveStage (chunks : List Chunk) (simOracle : String → List ℚ)
    (question : String) : List (Chunk × ℚ) :=
  find_relevant_chunks chunks (simOracle question) (topKOf (pyQ question))

/-- Retrieval, fund disambiguation and chunk-type filtering composed, the
chunk list reaching the formatter and the sources block. -/
def pipelineChunks (chunks : List Chunk) (simOracle : String → List ℚ)
    (question : String) : List (Chunk × ℚ) :=
  let q := pyQ question
  let relevant0 := retrieveStage chunks simOracle question
  typeFilter q (mentionedFund q relevant0)
    (mentionFilter (mentionedFund q relevant0) relevant0)

/-- `WebGeminiFAQAssistant.answer_question`. -/
def answer_question (chunks : List Chunk) (simOracle : String → List ℚ)
    (api_key apiResult : Option String) (question : String) : Answer :=
  if isGreeting (pyQ question) then greetingAnswer
  else if adviceBlocked (pyQ question) then adviceRefusalAnswer
  else if generalTaken (pyQ question) (pipelineChunks chunks simOracle question) then
    generalAnswer
  else
    { response :=
        match api_key with
        | some _ =>
            generate_gemini_response api_key apiResult question
              (format_context_for_gemini (pipelineChunks chunks simOracle question))
        | none =>
            generate_basic_response question
              (format_context_for_gemini (pipelineChunks chunks simOracle question)),
      sources := sourcesOf question (pipelineChunks chunks simOracle question) }

/-! ## `llm_enhanced_chatbot.py`: fallback response generation

`LLMEnhancedChatbot.generate_basic_response` truncates the context to its
first 10 lines before embedding it in the canned reply. -/

namespace LLMEnhanced

def generate_basic_response (question context : String) : String :=
  let lines := pySplitLines context
  let context_summary :=
    if lines.length > 10 then
      String.intercalate "\n" (lines.take 10) ++ "\n... (more information available)"
    else context
  "\nBased on the information I found:\n\n" ++ context_summary
    ++ "\n\nThis response was generated without AI enhancement. For more natural language responses, \nplease configure an OpenAI API key.\n"

/-- `LLMEnhancedChatbot.generate_llm_response`: `apiResult` abstracts the
OpenAI call, `none` being any failure caught by the broad `except`. -/
def generate_llm_response (apiResult : Option String)
    (question context : String) : String :=
  match apiResult with
  | some text => text
  | none => generate_basic_response question context

end LLMEnhanced

/-! ## `interactive_faq.py`: conversational composer -/

namespace InteractiveFAQ

/-- `EnhancedFAQAssistant.format_chunk_data`. -/
def format_chunk_data (chunk_data : List (String × PyVal)) : String :=
  String.intercalate "\n"
    (chunk_data.flatMap (fun kv =>
      match kv.2 with
      | .dict kvs =>
          (pyTitle (pyUnderscoreToSpace kv.1) ++ ":")
            :: kvs.map (fun sub => "  • " ++ pyTitle sub.1 ++ ": " ++ sub.2)
      | v => [pyTitle (pyUnderscoreToSpace kv.1) ++ ": " ++ pyStrV v]))

/-- `EnhancedFAQAssistant.generate_conversational_response`. -/
def generate_conversational_response (question : String)
    (relevant_chunks : List (Chunk × ℚ)) : String :=
  if relevant_chunks.isEmpty then
    "I couldn\x27t find relevant information to answer your question. Could you please rephrase or ask about a different topic?"
  else
    String.intercalate "\n"
      (((if relevant_chunks.length = 1 then "I found this information that might help:"
         else "I found some information that might help:")
        :: relevant_chunks.enum.flatMap (fun p =>
            ["\n" ++ toString (p.1 + 1) ++ ". " ++ p.2.1.fund_name ++ " ("
               ++ pyTitle (pyUnderscoreToSpace p.2.1.chunk_type) ++ ")",
             format_chunk_data p.2.1.data,
             "Source: " ++ p.2.1.source_url]))
        ++ ["\nIs there anything specific about this information you\x27d like to know more about?"])

end InteractiveFAQ

/-! ## `prepare_rag_data.py`: chunk generation

The database reads are abstracted as explicit input: the ordered scheme
list from `get_all_schemes` together with, per scheme, the optional
result of `get_scheme_data` (scheme name, source url and the ordered
`data_type → value` rows). -/

namespace PrepareRag

/-- One scheme as fetched from the database. -/
structure SchemeFetch where
  source_url : String
  scheme_name : String
  data : List (String × PyVal)
deriving DecidableEq, Repr

/-- The fixed `chunk_categories` table, in source order. -/
def chunk_categories : List (String × List String) :=
  [("expense_information", ["expense_ratio", "exit_load", "min_sip", "stamp_duty"]),
   ("performance_metrics",
      ["fund_returns", "category_averages", "rank", "pe_ratio", "pb_ratio", "annualised_returns"]),
   ("fund_characteristics",
      ["fund_size", "fund_manager", "lock_in", "scheme_type", "sub_category", "is_elss", "category_label"]),
   ("risk_information", ["riskometer", "risk_metrics", "benchmark"]),
   ("platform_information", ["statement_download_info"])]

/-- Python truthiness of a chunk data value
(`if data_type in data and data[data_type]`). -/
def pyTruthy : PyVal → Bool
  | .str s => !s.isEmpty
  | .dict kvs => !kvs.isEmpty
  | .list items => !items.isEmpty

/-- The per-category collection loop: keep the truthy listed fields in
table order. -/
def categoryData (data : List (String × PyVal)) (data_types : List String) :
    List (String × PyVal) :=
  data_types.filterMap (fun t =>
    match lookupData data t with
    | some v => if pyTruthy v then some (t, v) else none
    | none => none)

/-- `defaultdict(list)` update: append a chunk under a category key,
creating the key at the end on first use (Python dict insertion order). -/
def addChunk (cat : String) (c : Chunk) :
    List (String × List Chunk) → List (String × List Chunk)
  | [] => [(cat, [c])]
  | (k, cs) :: rest =>
      if k == cat then (k, cs ++ [c]) :: rest else (k, cs) :: addChunk cat c rest

/-- Chunks contributed by one fetched scheme (the `for category, data_types
in chunk_categories.items()` loop). -/
def schemeChunks (s : SchemeFetch) : List (String × Chunk) :=
  chunk_categories.filterMap (fun cat =>
    let cd := categoryData s.data cat.2
    if cd.isEmpty then none
    else some (cat.1,
      { fund_name := s.scheme_name, source_url := s.source_url,
        chunk_type := cat.1, data := cd }))

/-- The platform-information pass: schemes whose url contains `help` or
`transaction-history` and whose data is non-empty. -/
def platformChunks (schemes : List (Option SchemeFetch)) : List Chunk :=
  schemes.filterMap (fun os =>
    match os with
    | some s =>
        if (strContains s.source_url "help" || strContains s.source_url "transaction-history")
            && !s.data.isEmpty then
          some { fund_name := "Groww Platform", source_url := s.source_url,
                 chunk_type := "platform_information", data := s.data }
        else none
    | none => none)

/-- `prepare_rag_chunks` up to serialization: the grouped category →
chunk-list mapping in its Python dict insertion order.  Each list entry
is the `get_scheme_data` result for one scheme of `get_all_schemes`
(`none` when the lookup came back empty and the scheme is skipped). -/
def prepare_rag_chunks (schemes : List (Option SchemeFetch)) :
    List (String × List Chunk) :=
  let main := schemes.foldl (fun acc os =>
    match os with
    | some s => (schemeChunks s).foldl (fun acc kc => addChunk kc.1 kc.2 acc) acc
    | none => acc) []
  let plat := platformChunks schemes
  if plat.isEmpty then main
  else plat.foldl (fun acc c => addChunk "platform_information" c acc) main

/-- JSON string escaping (backslash and double quote). -/
def jsonEscape (s : String) : String :=
  ⟨s.data.flatMap (fun c =>
    if c == '\\' then ['\\', '\\']
    else if c == '"' then ['\\', '"']
    else [c])⟩

def jsonStr (s : String) : String := "\"" ++ jsonEscape s ++ "\""

def jsonOfDict (kvs : List (String × String)) : String :=
  "\x7b" ++ String.intercalate ", "
    (kvs.map (fun kv => jsonStr kv.1 ++ ": " ++ jsonStr kv.2)) ++ "\x7d"

def jsonOfPyVal : PyVal → String
  | .str s => jsonStr s
  | .dict kvs => jsonOfDict kvs
  | .list items =>
      "[" ++ String.intercalate ", " (items.map jsonOfDict) ++ "]"

def jsonOfChunk (c : Chunk) : String :=
  "\x7b" ++ jsonStr "fund_name" ++ ": " ++ jsonStr c.fund_name ++ ", "
    ++ jsonStr "source_url" ++ ": " ++ jsonStr c.source_url ++ ", "
    ++ jsonStr "chunk_type" ++ ": " ++ jsonStr c.chunk_type ++ ", "
    ++ jsonStr "data" ++ ": \x7b"
    ++ String.intercalate ", "
        (c.data.map (fun kv => jsonStr kv.1 ++ ": " ++ jsonOfPyVal kv.2))
    ++ "\x7d\x7d"

/-- The serialized chunk file (`json.dump(dict(chunks), ...)`): a fixed
deterministic rendering of the grouped mapping in insertion order.
Python's `json.dump` with fixed arguments is likewise a pure function of
the dict. -/
def rag_chunks_file (schemes : List (Option SchemeFetch)) : String :=
  "\x7b" ++ String.intercalate ", "
    ((prepare_rag_chunks schemes).map (fun cat =>
      jsonStr cat.1 ++ ": [" ++ String.intercalate ", " (cat.2.map jsonOfChunk) ++ "]"))
    ++ "\x7d"

end PrepareRag

/-! ## Validation and scrape-log status

`DataValidator.validate_scraped_data` aggregates per-field checks into
`errors`/`warnings` and defines `is_valid` as `len(errors) == 0`.  The
individual field validators are string/regex tests on the scraped values;
their outcomes are abstracted as the booleans of `FieldChecks`, in source
order. -/

namespace Validators

structure FieldChecks where
  url_valid : Bool
  fund_name_valid : Bool
  nav_valid : Bool
  min_sip_valid : Bool
  fund_size_valid : Bool
  expense_ratio_valid : Bool
  exit_load_ok : Bool
  fund_manager_valid : Bool
  returns_valid : Bool
  category_averages_ok : Bool
  rank_ok : Bool
  risk_metrics_ok : Bool
  riskometer_ok : Bool
  benchmark_ok : Bool
  statement_info_ok : Bool
deriving DecidableEq, Repr

structure ValidationResult where
  errors : List String
  warnings : List String
  is_valid : Bool
deriving DecidableEq, Repr

def warnOf (ok : Bool) (msg : String) : List String :=
  if ok then [] else [msg]

/-- `DataValidator.validate_scraped_data`. -/
def validate_scraped_data (c : FieldChecks) : ValidationResult :=
  let errors :=
    warnOf c.url_valid "Invalid or missing source URL"
      ++ warnOf c.fund_name_valid "Invalid or missing fund name"
  { errors := errors,
    warnings :=
      warnOf c.nav_valid "NAV data missing or invalid"
        ++ warnOf c.min_sip_valid "Minimum SIP amount missing or invalid"
        ++ warnOf c.fund_size_valid "Fund size missing or invalid"
        ++ warnOf c.expense_ratio_valid "Expense ratio missing or invalid"
        ++ warnOf c.exit_load_ok "Exit load format invalid"
        ++ warnOf c.fund_manager_valid "Fund manager name missing or invalid"
        ++ warnOf c.returns_valid "Fund returns missing or invalid"
        ++ warnOf c.category_averages_ok "Category averages format invalid"
        ++ warnOf c.rank_ok "Rank data format invalid"
        ++ warnOf c.risk_metrics_ok "Risk metrics format invalid"
        ++ warnOf c.riskometer_ok "Riskometer information format invalid"
        ++ warnOf c.benchmark_ok "Benchmark information format invalid"
        ++ warnOf c.statement_info_ok "Statement download information format invalid",
    is_valid := errors.isEmpty }

end Validators

namespace DBManager

/-- The status written to the `ScrapeLog` row by
`DatabaseManager.save_scheme_data`:
`status = 'success' if is_valid else 'partial'`, overridden to
`'failed'` whenever the errors list is non-empty. -/
def scrape_log_status (vr : Validators.ValidationResult) : String :=
  let status := if vr.is_valid then "success" else "partial"
  if !vr.errors.isEmpty then "failed" else status

end DBManager

/-! ## Supporting lemmas -/

theorem rank_length_le (chunks : List Chunk) (sims : List ℚ) (top_k : Nat)
    (threshold : ℚ) (h : 1 ≤ top_k) :
    (rank chunks sims top_k threshold).length ≤ top_k := by
  have h1 := collectAbove_length_le chunks sims threshold
    ((pySliceLast (argsort sims) top_k).reverse)
  have h2 : ((pySliceLast (argsort sims) top_k).reverse).length ≤ top_k := by
    rw [List.length_reverse]
    exact pySliceLast_length_le _ _ h
  exact le_trans h1 h2

theorem mentionFilter_some_mem (f : String) (rcs : List (Chunk × ℚ)) :
    ∀ r ∈ mentionFilter (some f) rcs, pyLower r.1.fund_name = f := by
  intro r hr
  simp only [mentionFilter, List.mem_filter] at hr
  exact eq_of_beq hr.2

theorem chunkTypeNarrow_subset (t : String) (rcs : List (Chunk × ℚ)) :
    ∀ r ∈ chunkTypeNarrow t rcs, r ∈ rcs := by
  intro r hr
  simp only [chunkTypeNarrow] at hr
  split at hr
  · exact List.take_subset 1 rcs hr
  · exact List.mem_of_mem_filter (List.take_subset 1 _ hr)

theorem typeFilter_subset (q : String) (m : Option String) (rcs : List (Chunk × ℚ)) :
    ∀ r ∈ typeFilter q m rcs, r ∈ rcs := by
  intro r hr
  simp only [typeFilter] at hr
  split_ifs at hr <;>
    first
      | exact chunkTypeNarrow_subset _ _ r hr
      | exact List.take_subset 3 rcs hr
      | exact hr

theorem sourcesOf_shape (question : String) (rcs : List (Chunk × ℚ)) (s : Source)
    (hs : s ∈ sourcesOf question rcs) : ∃ r ∈ rcs, s = sourceOfChunk r.1 := by
  simp only [sourcesOf] at hs
  split at hs
  · obtain ⟨r, hr, hmap⟩ := List.mem_map.mp hs
    exact ⟨r, hr, hmap.symm⟩
  · obtain ⟨r, hr, hmap⟩ := List.mem_map.mp hs
    exact ⟨r, List.mem_of_mem_filter hr, hmap.symm⟩

/-! ## Claim theorems -/

/-- Concrete chunks for the retrieval counterexamples and witnesses. -/
def probeChunk : Chunk :=
  { fund_name := "UTI Flexi Cap Fund", source_url := "https://groww.in/mutual-funds/uti-flexi-cap-fund",
    chunk_type := "nav_sip_information", data := [("nav", .str "255.01")] }

/-- Claim C3 (counterexample): with `top_k = 0` (reachable from a question
matching `0 fund`), the Python slice `[-0:]` keeps the whole index list,
so `rank` returns more than `top_k` results. -/
theorem c3_topk_zero_counterexample :
    ¬ ((rank [probeChunk] [1/2] 0 (1/5)).length ≤ 0) := by decide

/-- Claim C3 (amended: for every `top_k ≥ 1`): `rank` returns at most
`top_k` results and every returned similarity is at least (indeed
strictly above) the threshold. -/
theorem c3_rank_topk_and_threshold (chunks : List Chunk) (sims : List ℚ)
    (top_k : Nat) (threshold : ℚ) (h : 1 ≤ top_k) :
    (rank chunks sims top_k threshold).length ≤ top_k ∧
    ∀ p ∈ rank chunks sims top_k threshold, threshold ≤ p.2 := by
  refine ⟨rank_length_le chunks sims top_k threshold h, ?_⟩
  intro p hp
  exact le_of_lt (collectAbove_mem_score chunks sims threshold _ p hp)

/-- Witness for C3 at a concrete input. -/
theorem c3_rank_topk_and_threshold_witness :
    (1 : Nat) ≤ 3 ∧
    ((rank [probeChunk] [1/2] 3 (1/5)).length ≤ 3 ∧
      ∀ p ∈ rank [probeChunk] [1/2] 3 (1/5), (1/5 : ℚ) ≤ p.2) :=
  ⟨by decide, c3_rank_topk_and_threshold [probeChunk] [1/2] 3 (1/5) (by decide)⟩

/-- Claim C4 (counterexample): a chunk whose similarity equals the
threshold exactly is dropped, because the filter is strict (`> 0.2`). -/
theorem c4_exact_threshold_counterexample :
    rank [probeChunk] [1/5] 10 (1/5) = [] := by decide

/-- Claim C4 (amended): on a one-chunk corpus with `top_k ≥ 1` the chunk
is kept exactly when its score is strictly above the threshold; a score
equal to or below the threshold is excluded. -/
theorem c4_strict_threshold_boundary (c : Chunk) (s threshold : ℚ) (top_k : Nat)
    (h : 1 ≤ top_k) :
    rank [c] [s] top_k threshold = if threshold < s then [(c, s)] else [] := by
  have h0 : top_k ≠ 0 := by omega
  have harg : argsort [s] = [0] := rfl
  have hslice : pySliceLast ([0] : List Nat) top_k = [0] := by
    simp [pySliceLast, h0, Nat.sub_eq_zero_of_le h]
  rw [rank, harg, hslice]
  simp only [List.reverse_cons, List.reverse_nil, List.nil_append, collectAbove,
    List.getD_cons_zero]

/-- Witness for C4 at a concrete input. -/
theorem c4_strict_threshold_boundary_witness :
    (1 : Nat) ≤ 10 ∧
    rank [probeChunk] [1/2] 10 (1/5)
      = if (1/5 : ℚ) < 1/2 then [(probeChunk, 1/2)] else [] :=
  ⟨by decide, c4_strict_threshold_boundary probeChunk (1/2) (1/5) 10 (by decide)⟩

def tieChunkA : Chunk :=
  { fund_name := "Fund A", source_url := "uA", chunk_type := "t", data := [] }

def tieChunkB : Chunk :=
  { fund_name := "Fund B", source_url := "uB", chunk_type := "t", data := [] }

/-- Claim C5 (counterexample): two chunks with equal similarity come back
in reverse original order (the ascending argsort is reversed), not in
original order as claimed. -/
theorem c5_tie_order_counterexample :
    rank [tieChunkA, tieChunkB] [1/2, 1/2] 10 (1/5)
        = [(tieChunkB, 1/2), (tieChunkA, 1/2)] ∧
    rank [tieChunkA, tieChunkB] [1/2, 1/2] 10 (1/5)
        ≠ [(tieChunkA, 1/2), (tieChunkB, 1/2)] := by decide

/-- Claim C5 (amended): on a two-chunk corpus with equal scores above the
threshold and `top_k ≥ 2`, `rank` returns the chunks in reverse original
order. -/
theorem c5_ties_reverse_original_order (c0 c1 : Chunk) (s threshold : ℚ)
    (top_k : Nat) (h2 : 2 ≤ top_k) (hs : threshold < s) :
    rank [c0, c1] [s, s] top_k threshold = [(c1, s), (c0, s)] := by
  have h0 : top_k ≠ 0 := by omega
  have harg : argsort [s, s] = [0, 1] := by
    simp [argsort, argsortInsert, List.range_succ, lt_irrefl]
  have hslice : pySliceLast ([0, 1] : List Nat) top_k = [0, 1] := by
    simp [pySliceLast, h0, Nat.sub_eq_zero_of_le h2]
  rw [rank, harg, hslice]
  simp [collectAbove, hs]

/-- Witness for C5 at a concrete input. -/
theorem c5_ties_reverse_original_order_witness :
    (2 : Nat) ≤ 10 ∧ (1/5 : ℚ) < 1/2 ∧
    rank [tieChunkA, tieChunkB] [1/2, 1/2] 10 (1/5)
      = [(tieChunkB, 1/2), (tieChunkA, 1/2)] :=
  ⟨by decide, by decide,
    c5_ties_reverse_original_order tieChunkA tieChunkB (1/2) (1/5) 10 (by decide) (by decide)⟩

def emptyQueryChunk : Chunk :=
  { fund_name := "UTI Nifty 50 Index Fund",
    source_url := "https://groww.in/mutual-funds/uti-nifty-fund",
    chunk_type := "fund_characteristics", data := [("fund_size", .str "â‚¹14,000Cr")] }

/-- Claim C6 (counterexample): the code has no special case for an empty
query string.  The similarity scores of the encoded empty question are
whatever the external model yields; with a stored vector scoring 0.9 the
retrieval returns a non-empty result for the empty query. -/
theorem c6_empty_query_counterexample :
    find_relevant_chunks [emptyQueryChunk] ((fun _ => [9/10] : String → List ℚ) "") 10
      = [(emptyQueryChunk, 9/10)] := by decide

/-- Claim C6 (amended to the empty-corpus half): on an empty chunk set
`rank` returns `[]` without error for every `top_k` and threshold, the
conversational composer answers with the fixed "couldn't find relevant
information" message, and the web sources block is empty. -/
theorem c6_empty_corpus (top_k : Nat) (threshold : ℚ) (question : String) :
    rank [] [] top_k threshold = [] ∧
    InteractiveFAQ.generate_conversational_response question []
      = "I couldn\x27t find relevant information to answer your question. Could you please rephrase or ask about a different topic?" ∧
    sourcesOf question [] = [] := by
  refine ⟨?_, rfl, rfl⟩
  rw [rank, argsort]
  simp only [List.length_nil, List.range_zero, List.foldl_nil, pySliceLast]
  split <;> simp [collectAbove]

/-- Claim C1 (counterexample): the greeting check runs before the advice
guardrail, so a greeting-prefixed advice question gets the greeting
answer, not the refusal. -/
theorem c1_greeting_preempts_refusal :
    isAdviceQuery (pyQ "hi best") = true ∧
    isHoldingsQuery (pyQ "hi best") = false ∧
    answer_question [] (fun _ => []) none none "hi best" = greetingAnswer ∧
    answer_question [] (fun _ => []) none none "hi best" ≠ adviceRefusalAnswer := by
  decide

/-- Claim C1 (amended: provided the question is not detected as a
greeting): any question containing an advice keyword and no holdings
keyword gets the fixed refusal answer, whose sources list is exactly the
single Groww reference entry. -/
theorem c1_advice_refusal (chunks : List Chunk) (simOracle : String → List ℚ)
    (api_key apiResult : Option String) (question : String)
    (hg : isGreeting (pyQ question) = false)
    (hh : isHoldingsQuery (pyQ question) = false)
    (ha : isAdviceQuery (pyQ question) = true) :
    answer_question chunks simOracle api_key apiResult question = adviceRefusalAnswer ∧
    adviceRefusalAnswer.sources
      = [{ fund_name := "Groww Platform", url := growwUrl, type := "reference" }] := by
  refine ⟨?_, rfl⟩
  simp [answer_question, adviceBlocked, hg, hh, ha]

/-- Witness for C1 at a concrete input. -/
theorem c1_advice_refusal_witness :
    isGreeting (pyQ "which is the best fund to invest in?") = false ∧
    isHoldingsQuery (pyQ "which is the best fund to invest in?") = false ∧
    isAdviceQuery (pyQ "which is the best fund to invest in?") = true ∧
    (answer_question [probeChunk] (fun _ => [1/2]) none none
        "which is the best fund to invest in?" = adviceRefusalAnswer ∧
      adviceRefusalAnswer.sources
        = [{ fund_name := "Groww Platform", url := growwUrl, type := "reference" }]) :=
  ⟨by decide, by decide, by decide,
    c1_advice_refusal [probeChunk] (fun _ => [1/2]) none none
      "which is the best fund to invest in?" (by decide) (by decide) (by decide)⟩

def elssExpenseChunk : Chunk :=
  { fund_name := "UTI ELSS Tax Saver Fund",
    source_url := "https://groww.in/mutual-funds/uti-elss-tax-saver-fund-direct-growth",
    chunk_type := "expense_information",
    data := [("expense_ratio", .str "0.91%")] }

/-- Claim C2 (counterexample): a question that names exactly one corpus
fund (its significant words all occur, fraction 1 > 0.5) but contains an
advice keyword is answered by the guardrail, whose single source names
the Groww platform rather than a chunk of that fund. -/
theorem c2_guardrail_preempts_fund_filter :
    fundMatchScore (pyQ "compare uti elss tax saver fund") "UTI ELSS Tax Saver Fund" = 1 ∧
    answer_question [elssExpenseChunk] (fun _ => [4/5]) none none
        "compare uti elss tax saver fund" = adviceRefusalAnswer ∧
    (adviceRefusalAnswer.sources.all
        (fun s => pyLower s.fund_name == "uti elss tax saver fund")) = false := by
  decide

/-- Claim C2 (amended: provided the question is not a greeting, is not
blocked by the advice guardrail and does not fall into the low-similarity
general branch): when the candidate scan settles on a mentioned fund,
every returned source belongs to that fund. -/
theorem c2_mentioned_fund_restricts_sources (chunks : List Chunk)
    (simOracle : String → List ℚ) (api_key apiResult : Option String)
    (question f : String)
    (hg : isGreeting (pyQ question) = false)
    (ha : adviceBlocked (pyQ question) = false)
    (hm : mentionedFund (pyQ question) (retrieveStage chunks simOracle question) = some f)
    (hgen : generalTaken (pyQ question) (pipelineChunks chunks simOracle question) = false) :
    ∀ s ∈ (answer_question chunks simOracle api_key apiResult question).sources,
      pyLower s.fund_name = f := by
  intro s hs
  have hans : (answer_question chunks simOracle api_key apiResult question).sources
      = sourcesOf question (pipelineChunks chunks simOracle question) := by
    simp only [answer_question, hg, ha, hgen, Bool.false_eq_true, if_false]
  rw [hans] at hs
  obtain ⟨r, hr, hsrc⟩ := sourcesOf_shape question _ s hs
  have hpipe : pipelineChunks chunks simOracle question
      = typeFilter (pyQ question) (some f)
          (mentionFilter (some f) (retrieveStage chunks simOracle question)) := by
    simp only [pipelineChunks, hm]
  rw [hpipe] at hr
  have hr1 := typeFilter_subset _ _ _ r hr
  have hf := mentionFilter_some_mem f _ r hr1
  rw [hsrc]
  exact hf

def c2NavChunkElss : Chunk :=
  { fund_name := "UTI ELSS Tax Saver Fund",
    source_url := "https://groww.in/mutual-funds/uti-elss-tax-saver-fund-direct-growth",
    chunk_type := "nav_sip_information",
    data := [("nav", .str "295.45"), ("min_sip", .str "500")] }

def c2NavChunkFlexi : Chunk :=
  { fund_name := "UTI Flexi Cap Fund",
    source_url := "https://groww.in/mutual-funds/uti-flexi-cap-fund",
    chunk_type := "nav_sip_information",
    data := [("nav", .str "255.01")] }

/-- Witness for C2 at a concrete input: a two-fund corpus and the
question from the spec's example. -/
theorem c2_mentioned_fund_restricts_sources_witness :
    isGreeting (pyQ "what is the nav of uti elss tax saver fund?") = false ∧
    adviceBlocked (pyQ "what is the nav of uti elss tax saver fund?") = false ∧
    mentionedFund (pyQ "what is the nav of uti elss tax saver fund?")
        (retrieveStage [c2NavChunkElss, c2NavChunkFlexi] (fun _ => [4/5, 7/10])
          "what is the nav of uti elss tax saver fund?")
      = some "uti elss tax saver fund" ∧
    generalTaken (pyQ "what is the nav of uti elss tax saver fund?")
        (pipelineChunks [c2NavChunkElss, c2NavChunkFlexi] (fun _ => [4/5, 7/10])
          "what is the nav of uti elss tax saver fund?")
      = false ∧
    ∀ s ∈ (answer_question [c2NavChunkElss, c2NavChunkFlexi] (fun _ => [4/5, 7/10])
        none none "what is the nav of uti elss tax saver fund?").sources,
      pyLower s.fund_name = "uti elss tax saver fund" :=
  ⟨by decide, by decide, by decide, by decide,
    c2_mentioned_fund_restricts_sources [c2NavChunkElss, c2NavChunkFlexi]
      (fun _ => [4/5, 7/10]) none none "what is the nav of uti elss tax saver fund?"
      "uti elss tax saver fund" (by decide) (by decide) (by decide) (by decide)⟩

def tenLineContext : String := "a\nb\nc\nd\ne\nf\ng\nh\ni\nj\nk"

/-- Claim C7 (counterexample): the fallback of
`LLMEnhancedChatbot.generate_basic_response` truncates the context to its
first 10 lines, so an 11-line rendered context is not returned
verbatim — it does not even occur in the fallback output. -/
theorem c7_truncated_fallback_counterexample :
    LLMEnhanced.generate_llm_response none "q" tenLineContext
      = LLMEnhanced.generate_basic_response "q" tenLineContext ∧
    strContains (LLMEnhanced.generate_basic_response "q" tenLineContext)
      tenLineContext = false := by
  exact ⟨rfl, by decide⟩

/-- Claim C7 (amended): on any generation failure (`none` outcome) both
variants fall back to the pure canned response; in `gemini_web_chatbot`
the fallback embeds the full rendered context verbatim (the
`llm_enhanced_chatbot` fallback instead truncates it to 10 lines). -/
theorem c7_generation_failure_fallback (api_key : Option String)
    (question context : String) :
    generate_gemini_response api_key none question context
      = generate_basic_response question context ∧
    strContains (generate_basic_response question context) context = true ∧
    LLMEnhanced.generate_llm_response none question context
      = LLMEnhanced.generate_basic_response question context := by
  refine ⟨?_, ?_, rfl⟩
  · cases api_key <;> rfl
  · exact strContains_append_right "Based on the information I found:\n\n" context

def c8Question : String := "What is the expense ratio of UTI ELSS Tax Saver Fund?"

def c8Answer : Answer :=
  answer_question [elssExpenseChunk] (fun _ => [4/5]) none none c8Question

/-- Claim C8: the expense-ratio scenario.  With the spec's chunk present
and retrieved at similarity 0.8 (above every cutoff), the response text
contains `0.91%` and the sources list is exactly the chunk's
(fund_name, url, chunk_type) triple.  The no-API-key path is taken, so
the response is the deterministic basic formatting. -/
theorem c8_expense_ratio_scenario :
    strContains c8Answer.response "0.91%" = true ∧
    c8Answer.sources
      = [{ fund_name := "UTI ELSS Tax Saver Fund",
           url := "https://groww.in/mutual-funds/uti-elss-tax-saver-fund-direct-growth",
           type := "expense_information" }] := by
  decide

/-- Claim C9: chunk generation is a deterministic function of the fetched
source data — two runs over the same scheme rows, in the same order,
serialize to byte-identical chunk files.  Every iteration the Python
function performs (dict insertion order, `defaultdict` key creation,
`json.dump` with fixed arguments) is order-determined by the input, which
the pure model makes explicit. -/
theorem c9_prepare_rag_chunks_deterministic
    (run1 run2 : List (Option PrepareRag.SchemeFetch)) (h : run1 = run2) :
    PrepareRag.rag_chunks_file run1 = PrepareRag.rag_chunks_file run2 := by
  rw [h]

def c9SchemeElss : Option PrepareRag.SchemeFetch :=
  some { source_url := "https://groww.in/mutual-funds/uti-elss-tax-saver-fund-direct-growth",
         scheme_name := "UTI ELSS Tax Saver Fund",
         data := [("expense_ratio", .str "0.91%"), ("riskometer", .str "Very High"),
                  ("nav", .str "295.45")] }

def c9SchemeHelp : Option PrepareRag.SchemeFetch :=
  some { source_url := "https://groww.in/help/transaction-history",
         scheme_name := "Groww Help",
         data := [("statement_download_info", .str "Download from the app")] }

/-- Witness for C9: two syntactically different but equal run inputs
produce the same serialized file. -/
theorem c9_prepare_rag_chunks_deterministic_witness :
    PrepareRag.rag_chunks_file [c9SchemeElss, none, c9SchemeHelp]
      = PrepareRag.rag_chunks_file ([c9SchemeElss] ++ [none, c9SchemeHelp]) :=
  c9_prepare_rag_chunks_deterministic [c9SchemeElss, none, c9SchemeHelp]
    ([c9SchemeElss] ++ [none, c9SchemeHelp]) (by decide)

/-- Claim C10: the `ScrapeLog` status written by `save_scheme_data` for a
`validate_scraped_data` result is `failed` exactly when the errors list
is non-empty and `success` otherwise; `partial` is unreachable because
`is_valid` is defined as the errors list being empty. -/
theorem c10_scrape_log_status_never_partial (c : Validators.FieldChecks) :
    DBManager.scrape_log_status (Validators.validate_scraped_data c)
      = (if (Validators.validate_scraped_data c).errors.isEmpty then "success" else "failed") ∧
    DBManager.scrape_log_status (Validators.validate_scraped_data c) ≠ "partial" := by
  have hvalid : (Validators.validate_scraped_data c).is_valid
      = (Validators.validate_scraped_data c).errors.isEmpty := rfl
  constructor
  · rw [DBManager.scrape_log_status, hvalid]
    cases hE : (Validators.validate_scraped_data c).errors.isEmpty <;> simp [hE]
  · rw [DBManager.scrape_log_status, hvalid]
    cases hE : (Validators.validate_scraped_data c).errors.isEmpty <;> simp [hE]
